import Mathlib

/-!
Shallow embedding of the VodPipeline job-orchestration subsystem
(`bin/state/job_state.py`, `bin/api/status_server.py`,
`bin/clients/job_status_client.py`, `bin/models/job_status.py`,
`bin/vod_watcher.py`) together with theorems settling the spec claims.

Timestamps are modelled by the string `datetime.isoformat()` would
produce for them: the store only ever copies timestamps around and
serialization is `isoformat()` possibly followed by
`.replace('+00:00', 'Z')`, so the isoformat string is a faithful
representation.  Each mutator receives the current `now` string
explicitly, standing for `datetime.now(timezone.utc)`.
-/

namespace VodPipeline

/-- Embedding of `JobState` dataclass from `bin/state/job_state.py`. -/
structure JobState where
  job_id : Option String
  file_name : Option String
  stage : String
  percent : Int
  started_at : Option String
  last_updated_at : String
  error_message : Option String
  is_running : Bool
  deriving Repr, DecidableEq

/-- The JSON body produced for `/status` responses and outbound events:
keys `jobId`, `fileName`, `stage`, `percent`, `timestamp`, `errorMessage`. -/
structure StatusDict where
  jobId : Option String
  fileName : Option String
  stage : String
  percent : Int
  timestamp : String
  errorMessage : Option String
  deriving Repr, DecidableEq

/-- Left-to-right, non-overlapping replacement of `pat` by `rep` in a
character list, with fuel (the list's length suffices since every step
consumes at least one character).  This is the semantics of Python's
`str.replace` for a non-empty pattern. -/
def replaceFuel (pat rep : List Char) : Nat → List Char → List Char
  | _, [] => []
  | 0, l => l
  | fuel + 1, c :: rest =>
    if pat.isPrefixOf (c :: rest) then
      rep ++ replaceFuel pat rep fuel ((c :: rest).drop pat.length)
    else
      c :: replaceFuel pat rep fuel rest

/-- Python `s.replace(pat, rep)` for a non-empty pattern. -/
def pyReplace (s pat rep : String) : String :=
  ⟨replaceFuel pat.data rep.data s.data.length s.data⟩

/-- Python `s.endswith(suffix)`. -/
def pyEndsWith (s suffix : String) : Bool :=
  suffix.data.isSuffixOf s.data

/-- Embedding of `JobState.to_dict`: serializes the state, replacing `+00:00` with `Z`
in the timestamp. -/
def JobState.to_dict (s : JobState) : StatusDict :=
  { jobId := s.job_id
    fileName := s.file_name
    stage := s.stage
    percent := s.percent
    timestamp := pyReplace s.last_updated_at "+00:00" "Z"
    errorMessage := s.error_message }

/-- The initial state built in `JobStateManager.__init__`. -/
def initial_state (now : String) : JobState :=
  { job_id := none
    file_name := none
    stage := "Idle"
    percent := 0
    started_at := none
    last_updated_at := now
    error_message := none
    is_running := false }

/-- Embedding of `JobStateManager.start_job`. -/
def start_job (_s : JobState) (now job_id file_name : String) : JobState :=
  { job_id := some job_id
    file_name := some file_name
    stage := "Starting"
    percent := 0
    started_at := some now
    last_updated_at := now
    error_message := none
    is_running := true }

/-- Embedding of `JobStateManager.update_stage`. -/
def update_stage (s : JobState) (now stage : String) (percent : Int) : JobState :=
  { s with stage := stage, percent := percent, last_updated_at := now }

/-- Embedding of `JobStateManager.update_progress`. -/
def update_progress (s : JobState) (now : String) (percent : Int) : JobState :=
  { s with percent := percent, last_updated_at := now }

/-- Embedding of `JobStateManager.complete_job`. -/
def complete_job (s : JobState) (now : String) : JobState :=
  { s with stage := "Completed", percent := 100, last_updated_at := now,
           is_running := false }

/-- Embedding of `JobStateManager.fail_job`. -/
def fail_job (s : JobState) (now error_message : String) : JobState :=
  { s with stage := "Failed", error_message := some error_message,
           last_updated_at := now, is_running := false }

/-- Embedding of `JobStateManager.reset_to_idle`. -/
def reset_to_idle (_s : JobState) (now : String) : JobState :=
  { job_id := none
    file_name := none
    stage := "Idle"
    percent := 0
    started_at := none
    last_updated_at := now
    error_message := none
    is_running := false }

/-- Embedding of `StatusHandler.handle_status` (`bin/api/status_server.py`): returns the
HTTP status code and JSON body for `GET /status` given the store snapshot.
In the idle branch the timestamp is `state.last_updated_at.isoformat()`
with no `Z` replacement, exactly as in the source. -/
def handle_status (s : JobState) : Nat × StatusDict :=
  if s.is_running = false ∧ s.stage ≠ "Failed" then
    (200,
      { jobId := none
        fileName := none
        stage := "Idle"
        percent := 0
        timestamp := s.last_updated_at
        errorMessage := none })
  else
    (200, s.to_dict)

/-! ## Status event client (`bin/clients/job_status_client.py`,
`bin/models/job_status.py`)

The network is modelled by a `transport : Nat → TransportOutcome` giving
the outcome of the attempt with each 1-based attempt number, and the
observable side effects of a call are recorded in an `Effect` trace in
the order they are performed by the source. -/

/-- Outcome of one `urllib.request.urlopen` attempt inside
`JobStatusClient.post_status`: an HTTP response with a status code, or
one of the three caught exception classes. -/
inductive TransportOutcome where
  | status (code : Nat)
  | httpError
  | urlError
  | otherExn
  deriving Repr, DecidableEq

/-- An attempt succeeds iff it yields a response with status 200/201/202;
every other outcome (other code, `HTTPError`, `URLError`, any other
exception) is a retryable failure. -/
def isSuccessOutcome : TransportOutcome → Bool
  | .status code => code == 200 || code == 201 || code == 202
  | _ => false

/-- Observable side effects of a client call, in program order:
a write to the `JobStateManager` store, one network POST attempt, or one
`time.sleep(retry_delay)` between attempts. -/
inductive Effect where
  | storeWrite
  | netAttempt
  | sleepDelay
  deriving Repr, DecidableEq

/-- Embedding of `JobStatus` DTO from `bin/models/job_status.py`. -/
structure JobStatus where
  job_id : String
  file_name : String
  stage : String
  percent : Int
  timestamp : String
  error_message : Option String := none
  deriving Repr, DecidableEq

/-- Embedding of `JobStatus.create_started`. -/
def JobStatus.create_started (job_id file_name now : String) : JobStatus :=
  { job_id := job_id, file_name := file_name, stage := "Starting",
    percent := 0, timestamp := now }

/-- Embedding of `JobStatus.create_progress`. -/
def JobStatus.create_progress (job_id file_name stage : String)
    (percent : Int) (now : String) : JobStatus :=
  { job_id := job_id, file_name := file_name, stage := stage,
    percent := percent, timestamp := now }

/-- Embedding of `JobStatus.create_stage_changed`. -/
def JobStatus.create_stage_changed (job_id file_name stage : String)
    (percent : Int) (now : String) : JobStatus :=
  { job_id := job_id, file_name := file_name, stage := stage,
    percent := percent, timestamp := now }

/-- Embedding of `JobStatus.create_completed`. -/
def JobStatus.create_completed (job_id file_name now : String) : JobStatus :=
  { job_id := job_id, file_name := file_name, stage := "Completed",
    percent := 100, timestamp := now }

/-- Embedding of `JobStatus.create_failed`. -/
def JobStatus.create_failed (job_id file_name error_message : String)
    (current_percent : Int) (now : String) : JobStatus :=
  { job_id := job_id, file_name := file_name, stage := "Failed",
    percent := current_percent, timestamp := now,
    error_message := some error_message }

/-- The `JobStatusClient` constructor arguments that matter for control
flow: the base URL and `max_retries` (default 3 in the source). -/
structure Client where
  api_base_url : Option String
  max_retries : Nat
  deriving Repr, DecidableEq

/-- Python `s.strip()`: drop leading and trailing whitespace. -/
def pyStrip (s : String) : String :=
  ⟨((s.data.dropWhile Char.isWhitespace).reverse.dropWhile
      Char.isWhitespace).reverse⟩

/-- Embedding of `JobStatusClient._is_api_url_valid`: the URL is not `None` and its
`strip()` is non-empty. -/
def is_api_url_valid : Option String → Bool
  | none => false
  | some u => decide (0 < (pyStrip u).data.length)

/-- The retry loop body of `post_status`, for attempts numbered from
`attempt` with the given number of loop iterations remaining.  Returns
the boolean result together with the trace of network attempts and
inter-attempt sleeps, in order.  A failed attempt is followed by a sleep
exactly when it is not the last one. -/
def postAttempts (transport : Nat → TransportOutcome) :
    Nat → Nat → Bool × List Effect
  | _, 0 => (false, [])
  | attempt, remaining + 1 =>
    if isSuccessOutcome (transport attempt) then
      (true, [Effect.netAttempt])
    else
      match remaining with
      | 0 => (false, [Effect.netAttempt])
      | r + 1 =>
        let rest := postAttempts transport (attempt + 1) (r + 1)
        (rest.1, Effect.netAttempt :: Effect.sleepDelay :: rest.2)

/-- Embedding of `JobStatusClient.post_status`: returns `false` with no I/O when the
client is disabled, otherwise runs the retry loop for
`max_retries` attempts.  All exceptions are caught inside the loop, so
the function is total and always returns a boolean. -/
def post_status (c : Client) (transport : Nat → TransportOutcome)
    (_js : JobStatus) : Bool × List Effect :=
  if is_api_url_valid c.api_base_url then
    postAttempts transport 1 c.max_retries
  else
    (false, [])

/-- Embedding of `JobStatusClient.post_started`: updates the store, builds the DTO,
then posts.  The result is the new store state, the boolean result, and
the effect trace in program order. -/
def post_started (c : Client) (transport : Nat → TransportOutcome)
    (s : JobState) (now job_id file_name : String) :
    JobState × Bool × List Effect :=
  let s' := start_job s now job_id file_name
  let js := JobStatus.create_started job_id file_name now
  let r := post_status c transport js
  (s', r.1, Effect.storeWrite :: r.2)

/-- Embedding of `JobStatusClient.post_progress`. -/
def post_progress (c : Client) (transport : Nat → TransportOutcome)
    (s : JobState) (now job_id file_name stage : String) (percent : Int) :
    JobState × Bool × List Effect :=
  let s' := update_progress s now percent
  let js := JobStatus.create_progress job_id file_name stage percent now
  let r := post_status c transport js
  (s', r.1, Effect.storeWrite :: r.2)

/-- Embedding of `JobStatusClient.post_stage_changed`. -/
def post_stage_changed (c : Client) (transport : Nat → TransportOutcome)
    (s : JobState) (now job_id file_name stage : String) (percent : Int) :
    JobState × Bool × List Effect :=
  let s' := update_stage s now stage percent
  let js := JobStatus.create_stage_changed job_id file_name stage percent now
  let r := post_status c transport js
  (s', r.1, Effect.storeWrite :: r.2)

/-- Embedding of `JobStatusClient.post_completed`. -/
def post_completed (c : Client) (transport : Nat → TransportOutcome)
    (s : JobState) (now job_id file_name : String) :
    JobState × Bool × List Effect :=
  let s' := complete_job s now
  let js := JobStatus.create_completed job_id file_name now
  let r := post_status c transport js
  (s', r.1, Effect.storeWrite :: r.2)

/-- Embedding of `JobStatusClient.post_failed`. -/
def post_failed (c : Client) (transport : Nat → TransportOutcome)
    (s : JobState) (now job_id file_name error_message : String)
    (current_percent : Int) : JobState × Bool × List Effect :=
  let s' := fail_job s now error_message
  let js := JobStatus.create_failed job_id file_name error_message
    current_percent now
  let r := post_status c transport js
  (s', r.1, Effect.storeWrite :: r.2)

/-- Python `error_message or "Unknown error"` on an
`Optional[str]`: `None` and the empty string are falsy, so both yield
the default. -/
def pyOrUnknownError : Option String → String
  | none => "Unknown error"
  | some m => if m.isEmpty then "Unknown error" else m

/-- Embedding of `JobStatusClient.emit_event`: dispatches on the stage name, reading
the store's current stage only in the final branch. -/
def emit_event (c : Client) (transport : Nat → TransportOutcome)
    (s : JobState) (now job_id file_name stage : String) (percent : Int)
    (error_message : Option String) : JobState × Bool × List Effect :=
  if stage = "Starting" then
    post_started c transport s now job_id file_name
  else if stage = "Completed" then
    post_completed c transport s now job_id file_name
  else if stage = "Failed" then
    post_failed c transport s now job_id file_name
      (pyOrUnknownError error_message) percent
  else
    if s.stage ≠ stage then
      post_stage_changed c transport s now job_id file_name stage percent
    else
      post_progress c transport s now job_id file_name stage percent

/-! ## Stability watcher and job queue (`bin/vod_watcher.py`)

`wait_until_stable` polls `path.stat().st_size` once per second; the
sample sequence is modelled by `samples : Nat → Option Nat` (`none` =
`FileNotFoundError` at that second).  The loop may run forever, so the
embedding takes a fuel argument counting loop iterations; `some t`
means the file was admitted on the sample taken at second `t`. -/

/-- Embedding of `wait_until_stable`, one constructor argument per mutable loop
variable: current second `t`, `last_size` (initially `-1`) and
`stable_time` (initially `0`). -/
def wait_until_stable (samples : Nat → Option Nat) (stable_seconds : Nat) :
    Nat → Nat → Int → Nat → Option Nat
  | 0, _, _, _ => none
  | fuel + 1, t, last_size, stable_time =>
    match samples t with
    | none => wait_until_stable samples stable_seconds fuel (t + 1)
        last_size stable_time
    | some size =>
      if (size : Int) = last_size then
        if stable_seconds ≤ stable_time + 1 then some t
        else wait_until_stable samples stable_seconds fuel (t + 1)
          last_size (stable_time + 1)
      else
        wait_until_stable samples stable_seconds fuel (t + 1) (size : Int) 0

/-- The default `stable_seconds` used by `VODHandler.on_created`. -/
def defaultStableSeconds : Nat := 10

/-- The shared state of `vod_watcher.py`: the FIFO `job_queue` and the
de-duplication set `queued_files`, both guarded by `queue_lock`. -/
structure WatcherState where
  queue : List String
  queued_files : Finset String
  deriving DecidableEq

/-- The enqueue section of `VODHandler.on_created` (after the stability
wait): under `queue_lock`, a path already in `queued_files` is skipped
(returned flag `false`), otherwise it is added to the set and put on the
queue. -/
def enqueue (st : WatcherState) (path : String) : WatcherState × Bool :=
  if path ∈ st.queued_files then
    (st, false)
  else
    ({ queue := st.queue ++ [path],
       queued_files := insert path st.queued_files }, true)

/-- One iteration of `worker_loop`: dequeue the head, invoke
`run_for_file` on it — whose outcome `driverRaises` is caught by the
`try`/`except`, with `queued_files.discard(path)` in the `finally`
block — and return the new state plus the path the driver was invoked
on (`none` when the queue is empty and the worker blocks). -/
def worker_step (_driverRaises : Bool) (st : WatcherState) :
    WatcherState × Option String :=
  match st.queue with
  | [] => (st, none)
  | p :: rest =>
    ({ queue := rest, queued_files := st.queued_files.erase p }, some p)

/-! ## Store operation sequences (`bin/state/job_state.py`)

A run of the store is a list of operations, each paired with the
`now` timestamp observed by that call. -/

/-- One mutating call on `JobStateManager`. -/
inductive StoreOp where
  | start (job_id file_name : String)
  | updateStage (stage : String) (percent : Int)
  | updateProgress (percent : Int)
  | complete
  | fail (error_message : String)
  | resetToIdle
  deriving Repr, DecidableEq

/-- Apply one store operation. -/
def applyOp (s : JobState) : StoreOp × String → JobState
  | (.start job_id file_name, now) => start_job s now job_id file_name
  | (.updateStage stage percent, now) => update_stage s now stage percent
  | (.updateProgress percent, now) => update_progress s now percent
  | (.complete, now) => complete_job s now
  | (.fail msg, now) => fail_job s now msg
  | (.resetToIdle, now) => reset_to_idle s now

/-- Run a list of store operations from a state. -/
def runOps (s : JobState) : List (StoreOp × String) → JobState
  | [] => s
  | op :: rest => runOps (applyOp s op) rest

/-- Run a list of `update_stage` calls, each a `(now, stage, percent)`
triple. -/
def runUpdateStages (s : JobState) : List (String × String × Int) → JobState
  | [] => s
  | (now, stage, percent) :: rest =>
    runUpdateStages (update_stage s now stage percent) rest

/-- Sequence predicate for the amended C9: after a `fail`, no
`update_stage` or `complete` may occur until a `start` or
`reset_to_idle` intervenes (the first argument tracks whether the run
is currently in that after-fail window). -/
def seqOk : Bool → List (StoreOp × String) → Bool
  | _, [] => true
  | _, (.start _ _, _) :: rest => seqOk false rest
  | _, (.resetToIdle, _) :: rest => seqOk false rest
  | _, (.fail _, _) :: rest => seqOk true rest
  | afterFail, (.updateProgress _, _) :: rest => seqOk afterFail rest
  | false, (.updateStage _ _, _) :: rest => seqOk false rest
  | true, (.updateStage _ _, _) :: _ => false
  | false, (.complete, _) :: rest => seqOk false rest
  | true, (.complete, _) :: _ => false

/-- The effect trace of a run of the retry loop in which every attempt
fails: one network attempt per iteration, with a sleep between
consecutive attempts and none after the last. -/
def failTrace : Nat → List Effect
  | 0 => []
  | 1 => [Effect.netAttempt]
  | n + 2 => Effect.netAttempt :: Effect.sleepDelay :: failTrace (n + 1)

/-- A transport that fails with `URLError` on every attempt. -/
def alwaysURLError : Nat → TransportOutcome := fun _ => TransportOutcome.urlError

/-- An enabled client with the constructor-default `max_retries = 3`. -/
def exampleEnabledClient : Client := ⟨some "http://localhost:5000", 3⟩

/-- A terminal completed record in the store. -/
def exampleCompletedState : JobState :=
  { job_id := some "J1", file_name := some "a.mp4", stage := "Completed",
    percent := 100, started_at := some "2026-10-12T00:00:00+00:00",
    last_updated_at := "2026-10-12T00:05:00+00:00",
    error_message := none, is_running := false }

/-- A failed record in the store. -/
def exampleFailedState : JobState :=
  { job_id := some "J1", file_name := some "a.mp4", stage := "Failed",
    percent := 35, started_at := some "2026-10-12T00:00:00+00:00",
    last_updated_at := "2026-10-12T00:05:00+00:00",
    error_message := some "boom", is_running := false }

/-- An idle record whose `last_updated_at` is an ISO-8601 UTC
timestamp as produced by `datetime.now(timezone.utc).isoformat()`. -/
def exampleIdleState : JobState :=
  { job_id := none, file_name := none, stage := "Idle", percent := 0,
    started_at := none, last_updated_at := "2026-10-12T00:00:00+00:00",
    error_message := none, is_running := false }

/-- The store state right after `start_job("J1", "a.mp4")`. -/
def exampleStartedState : JobState :=
  start_job (initial_state "t0") "t1" "J1" "a.mp4"

/-- The store state after the stage changed to `Encoding`. -/
def exampleEncodingState : JobState :=
  update_stage exampleStartedState "t2" "Encoding" 10

/-- A sample trace: the file is missing at second 0 and has constant
size 5 from second 1 on. -/
def exampleSamples : Nat → Option Nat :=
  fun t => if t = 0 then none else some 5

lemma runUpdateStages_job_id (us : List (String × String × Int)) :
    ∀ s : JobState, (runUpdateStages s us).job_id = s.job_id := by
  induction us with
  | nil => intro s; rfl
  | cons u rest ih =>
    intro s
    obtain ⟨now, stage, percent⟩ := u
    simpa [runUpdateStages] using ih (update_stage s now stage percent)

lemma runUpdateStages_file_name (us : List (String × String × Int)) :
    ∀ s : JobState, (runUpdateStages s us).file_name = s.file_name := by
  induction us with
  | nil => intro s; rfl
  | cons u rest ih =>
    intro s
    obtain ⟨now, stage, percent⟩ := u
    simpa [runUpdateStages] using ih (update_stage s now stage percent)

lemma seqOk_inv (L : List (StoreOp × String)) :
    ∀ (b : Bool) (s : JobState),
      (if b then s.stage = "Failed" else s.error_message = none) →
      seqOk b L = true →
      (runOps s L).error_message ≠ none → (runOps s L).stage = "Failed" := by
  induction L with
  | nil =>
    intro b s hs _ herr
    cases b with
    | true => simpa [runOps] using hs
    | false => simp [runOps] at herr ⊢; simp at hs; exact absurd hs herr
  | cons op rest ih =>
    intro b s hs hok
    obtain ⟨op, now⟩ := op
    cases op with
    | start job_id file_name =>
      have : seqOk false rest = true := by cases b <;> simpa [seqOk] using hok
      exact ih false (start_job s now job_id file_name)
        (by simp [start_job]) this
    | updateStage stage percent =>
      cases b with
      | true => simp [seqOk] at hok
      | false =>
        exact ih false (update_stage s now stage percent)
          (by simpa [update_stage] using hs) (by simpa [seqOk] using hok)
    | updateProgress percent =>
      cases b with
      | true =>
        exact ih true (update_progress s now percent)
          (by simpa [update_progress] using hs) (by simpa [seqOk] using hok)
      | false =>
        exact ih false (update_progress s now percent)
          (by simpa [update_progress] using hs) (by simpa [seqOk] using hok)
    | complete =>
      cases b with
      | true => simp [seqOk] at hok
      | false =>
        exact ih false (complete_job s now)
          (by simpa [complete_job] using hs) (by simpa [seqOk] using hok)
    | fail msg =>
      have : seqOk true rest = true := by cases b <;> simpa [seqOk] using hok
      exact ih true (fail_job s now msg) (by simp [fail_job]) this
    | resetToIdle =>
      have : seqOk false rest = true := by cases b <;> simpa [seqOk] using hok
      exact ih false (reset_to_idle s now) (by simp [reset_to_idle]) this

/-- C5: after `start_job(id, name)`, any sequence of `update_stage`
calls, and `complete_job()`, the snapshot has `is_running = false`,
`stage = "Completed"`, `percent = 100`, and `job_id`/`file_name` are
still the started job's values (not cleared). -/
theorem c5_complete_after_updates (s : JobState)
    (now0 now1 id name : String) (us : List (String × String × Int)) :
    (complete_job (runUpdateStages (start_job s now0 id name) us)
        now1).is_running = false ∧
    (complete_job (runUpdateStages (start_job s now0 id name) us)
        now1).stage = "Completed" ∧
    (complete_job (runUpdateStages (start_job s now0 id name) us)
        now1).percent = 100 ∧
    (complete_job (runUpdateStages (start_job s now0 id name) us)
        now1).job_id = some id ∧
    (complete_job (runUpdateStages (start_job s now0 id name) us)
        now1).file_name = some name := by
  refine ⟨rfl, rfl, rfl, ?_, ?_⟩
  · simpa [complete_job, start_job] using
      runUpdateStages_job_id us (start_job s now0 id name)
  · simpa [complete_job, start_job] using
      runUpdateStages_file_name us (start_job s now0 id name)

/-- C6: from any state, `fail_job(msg)` sets `stage = "Failed"`,
`is_running = false` and `error_message = msg`, while `percent`,
`job_id`, `file_name` and `started_at` keep their previous values. -/
theorem c6_fail_preserves_fields (s : JobState) (now msg : String) :
    (fail_job s now msg).stage = "Failed" ∧
    (fail_job s now msg).is_running = false ∧
    (fail_job s now msg).error_message = some msg ∧
    (fail_job s now msg).percent = s.percent ∧
    (fail_job s now msg).job_id = s.job_id ∧
    (fail_job s now msg).file_name = s.file_name ∧
    (fail_job s now msg).started_at = s.started_at := by
  simp [fail_job]

/-- C1: `GET /status` always answers 200; when the stored state has
`is_running = false` and `stage ≠ "Failed"` the body is the idle
representation regardless of the stored stage and percent, and when
`is_running = true` or `stage = "Failed"` the body echoes the stored
record (it is exactly `to_dict` of the snapshot, so the error message is
included when failed). -/
theorem c1_status_idle_display (s : JobState) :
    (handle_status s).1 = 200 ∧
    (s.is_running = false → s.stage ≠ "Failed" →
      (handle_status s).2.stage = "Idle" ∧
      (handle_status s).2.jobId = none ∧
      (handle_status s).2.fileName = none ∧
      (handle_status s).2.percent = 0 ∧
      (handle_status s).2.errorMessage = none) ∧
    (s.is_running = true ∨ s.stage = "Failed" →
      (handle_status s).2 = s.to_dict ∧
      (handle_status s).2.jobId = s.job_id ∧
      (handle_status s).2.fileName = s.file_name ∧
      (handle_status s).2.stage = s.stage ∧
      (handle_status s).2.percent = s.percent ∧
      (handle_status s).2.errorMessage = s.error_message) := by
  by_cases h : s.is_running = false ∧ s.stage ≠ "Failed"
  · refine ⟨by simp [handle_status, h], fun _ _ => by simp [handle_status, h],
      fun hc => ?_⟩
    rcases hc with hr | hf
    · rw [hr] at h; exact absurd h.1 (by simp)
    · exact absurd hf h.2
  · refine ⟨by simp [handle_status, h], fun h1 h2 => absurd ⟨h1, h2⟩ h,
      fun _ => ?_⟩
    simp [handle_status, h, JobState.to_dict]

/-- Witness for C1: a completed record is displayed as idle, a failed
record is echoed verbatim with its error message. -/
theorem c1_status_idle_display_witness :
    ((handle_status exampleCompletedState).2.stage = "Idle" ∧
      (handle_status exampleCompletedState).2.jobId = none ∧
      (handle_status exampleCompletedState).2.fileName = none ∧
      (handle_status exampleCompletedState).2.percent = 0 ∧
      (handle_status exampleCompletedState).2.errorMessage = none) ∧
    (handle_status exampleFailedState).2.stage = "Failed" ∧
    (handle_status exampleFailedState).2.errorMessage = some "boom" :=
  ⟨(c1_status_idle_display exampleCompletedState).2.1 rfl (by decide),
    ((c1_status_idle_display exampleFailedState).2.2 (Or.inr rfl)).2.2.2.1,
    ((c1_status_idle_display exampleFailedState).2.2 (Or.inr rfl)).2.2.2.2.2⟩

/-- C10 (code bug): for an idle-displayed state the `/status` body's
timestamp is the raw `isoformat()` string ending in `+00:00`, not the
`Z` form required by the spec and produced by `to_dict` for the same
stored timestamp — the idle branch of `handle_status` omits the
`replace('+00:00', 'Z')` that `to_dict` applies. -/
theorem c10_idle_timestamp_not_z :
    (handle_status exampleIdleState).2.timestamp
        = "2026-10-12T00:00:00+00:00" ∧
    pyEndsWith (handle_status exampleIdleState).2.timestamp "Z" = false ∧
    exampleIdleState.to_dict.timestamp = "2026-10-12T00:00:00Z" ∧
    pyEndsWith exampleIdleState.to_dict.timestamp "Z" = true := by
  refine ⟨rfl, ?_, ?_, ?_⟩ <;> decide

/-- C9 counterexample: `fail("boom")` then `update_stage("Encoding", 50)`
leaves `error_message = some "boom"` with `stage = "Encoding"`, so the
claimed invariant fails for this operation sequence. -/
theorem c9_counterexample :
    (runOps (initial_state "t0")
        [(.fail "boom", "t1"), (.updateStage "Encoding" 50, "t2")]
      ).error_message = some "boom" ∧
    (runOps (initial_state "t0")
        [(.fail "boom", "t1"), (.updateStage "Encoding" 50, "t2")]
      ).stage = "Encoding" ∧
    ¬((runOps (initial_state "t0")
        [(.fail "boom", "t1"), (.updateStage "Encoding" 50, "t2")]
      ).error_message ≠ none →
      (runOps (initial_state "t0")
        [(.fail "boom", "t1"), (.updateStage "Encoding" 50, "t2")]
      ).stage = "Failed") := by
  refine ⟨rfl, rfl, ?_⟩
  intro h
  exact absurd (h (by decide)) (by decide)

/-- C9 (amended): for every operation sequence from the initial idle
state in which no `update_stage` or `complete_job` occurs after a
`fail_job` without an intervening `start_job` or `reset_to_idle`, the
resulting state has `error_message` non-absent only when
`stage = "Failed"`. -/
theorem c9_error_only_when_failed (now : String)
    (L : List (StoreOp × String)) (hok : seqOk false L = true)
    (herr : (runOps (initial_state now) L).error_message ≠ none) :
    (runOps (initial_state now) L).stage = "Failed" :=
  seqOk_inv L false (initial_state now) (by simp [initial_state]) hok herr

/-- Witness for C9: a well-formed run ending in a failure indeed ends in
the `Failed` stage. -/
theorem c9_error_only_when_failed_witness :
    (runOps (initial_state "t0")
        [(.start "J1" "a.mp4", "t1"), (.updateStage "Encoding" 50, "t2"),
         (.fail "boom", "t3")]).stage = "Failed" :=
  c9_error_only_when_failed "t0"
    [(.start "J1" "a.mp4", "t1"), (.updateStage "Encoding" 50, "t2"),
     (.fail "boom", "t3")] (by decide) (by decide)

lemma postAttempts_all_fail (transport : Nat → TransportOutcome)
    (hfail : ∀ k, isSuccessOutcome (transport k) = false) :
    ∀ n a, postAttempts transport a n = (false, failTrace n) := by
  intro n
  induction n with
  | zero => intro a; rfl
  | succ m ih =>
    intro a
    cases m with
    | zero => simp [postAttempts, failTrace, hfail a]
    | succ k => simp [postAttempts, failTrace, hfail a, ih (a + 1)]

lemma failTrace_count_net (n : Nat) :
    (failTrace n).count Effect.netAttempt = n := by
  induction n with
  | zero => rfl
  | succ m ih =>
    cases m with
    | zero => rfl
    | succ k => simpa [failTrace] using ih

lemma failTrace_count_sleep (n : Nat) :
    (failTrace n).count Effect.sleepDelay = n - 1 := by
  induction n with
  | zero => rfl
  | succ m ih =>
    cases m with
    | zero => rfl
    | succ k =>
      have : (failTrace (k + 1)).count Effect.sleepDelay = k := by
        simpa using ih
      simp [failTrace, this]

lemma postAttempts_no_storeWrite (transport : Nat → TransportOutcome) :
    ∀ n a, Effect.storeWrite ∉ (postAttempts transport a n).2 := by
  intro n
  induction n with
  | zero => intro a; simp [postAttempts]
  | succ m ih =>
    intro a
    cases hs : isSuccessOutcome (transport a) with
    | true => unfold postAttempts; simp [hs]
    | false =>
      cases m with
      | zero => simp [postAttempts, hs]
      | succ k =>
        have h2 := ih (a + 1)
        have heq : postAttempts transport a (k + 1 + 1)
            = ((postAttempts transport (a + 1) (k + 1)).1,
              Effect.netAttempt :: Effect.sleepDelay ::
                (postAttempts transport (a + 1) (k + 1)).2) := by
          simp [postAttempts, hs]
        rw [heq]
        intro hmem
        rcases List.mem_cons.mp hmem with h | hmem2
        · exact Effect.noConfusion h
        rcases List.mem_cons.mp hmem2 with h | hmem3
        · exact Effect.noConfusion h
        exact h2 hmem3

/-- C3: for an enabled client whose transport fails on every attempt,
`post_status` returns `false`, performs exactly `max_retries` network
attempts (3 by the constructor default), and sleeps between consecutive
attempts but not after the final one — the trace is exactly
`failTrace max_retries`.  The embedding is a total function returning a
boolean, mirroring that every exception is caught inside the loop and
nothing is raised to the caller for any transport outcome. -/
theorem c3_retry_bound (c : Client) (transport : Nat → TransportOutcome)
    (js : JobStatus) (henabled : is_api_url_valid c.api_base_url = true)
    (hfail : ∀ k, isSuccessOutcome (transport k) = false) :
    (post_status c transport js).1 = false ∧
    (post_status c transport js).2.count Effect.netAttempt
        = c.max_retries ∧
    (post_status c transport js).2.count Effect.sleepDelay
        = c.max_retries - 1 ∧
    (post_status c transport js).2 = failTrace c.max_retries := by
  have h := postAttempts_all_fail transport hfail c.max_retries 1
  refine ⟨?_, ?_, ?_, ?_⟩ <;>
    simp [post_status, henabled, h, failTrace_count_net,
      failTrace_count_sleep]

/-- Witness for C3: with the default `max_retries = 3` and a permanently
failing transport, `post_status` makes 3 attempts, sleeps twice and
returns `false`. -/
theorem c3_retry_bound_witness :
    (post_status ⟨some "http://localhost:5000", 3⟩ alwaysURLError
        (JobStatus.create_started "J1" "a.mp4" "t1")).1 = false ∧
    (post_status ⟨some "http://localhost:5000", 3⟩ alwaysURLError
        (JobStatus.create_started "J1" "a.mp4" "t1")).2.count
        Effect.netAttempt = 3 ∧
    (post_status ⟨some "http://localhost:5000", 3⟩ alwaysURLError
        (JobStatus.create_started "J1" "a.mp4" "t1")).2.count
        Effect.sleepDelay = 2 :=
  have h := c3_retry_bound ⟨some "http://localhost:5000", 3⟩ alwaysURLError
    (JobStatus.create_started "J1" "a.mp4" "t1") (by decide)
    (fun _ => rfl)
  ⟨h.1, h.2.1, h.2.2.1⟩

/-- C4: each of the six client calls first writes the store — the new
state equals the corresponding store mutation and the effect trace
begins with the store write, with no further store write among the
network effects — and when the base URL is absent or empty/whitespace
the call still performs that state mutation, performs no network I/O
and returns `false`. -/
theorem c4_mutate_before_network (c : Client)
    (transport : Nat → TransportOutcome) (s : JobState)
    (now job_id file_name stage msg : String) (percent : Int)
    (em : Option String) :
    ((post_started c transport s now job_id file_name).1
        = start_job s now job_id file_name ∧
      ∃ es, (post_started c transport s now job_id file_name).2.2
          = Effect.storeWrite :: es ∧ Effect.storeWrite ∉ es) ∧
    ((post_progress c transport s now job_id file_name stage percent).1
        = update_progress s now percent ∧
      ∃ es, (post_progress c transport s now job_id file_name stage
            percent).2.2 = Effect.storeWrite :: es ∧
        Effect.storeWrite ∉ es) ∧
    ((post_stage_changed c transport s now job_id file_name stage
          percent).1 = update_stage s now stage percent ∧
      ∃ es, (post_stage_changed c transport s now job_id file_name stage
            percent).2.2 = Effect.storeWrite :: es ∧
        Effect.storeWrite ∉ es) ∧
    ((post_completed c transport s now job_id file_name).1
        = complete_job s now ∧
      ∃ es, (post_completed c transport s now job_id file_name).2.2
          = Effect.storeWrite :: es ∧ Effect.storeWrite ∉ es) ∧
    ((post_failed c transport s now job_id file_name msg percent).1
        = fail_job s now msg ∧
      ∃ es, (post_failed c transport s now job_id file_name msg
            percent).2.2 = Effect.storeWrite :: es ∧
        Effect.storeWrite ∉ es) ∧
    (∃ es, (emit_event c transport s now job_id file_name stage percent
          em).2.2 = Effect.storeWrite :: es ∧ Effect.storeWrite ∉ es) ∧
    (is_api_url_valid c.api_base_url = false →
      (post_started c transport s now job_id file_name).2.2
          = [Effect.storeWrite] ∧
      (post_started c transport s now job_id file_name).2.1 = false ∧
      (post_progress c transport s now job_id file_name stage
          percent).2.2 = [Effect.storeWrite] ∧
      (post_progress c transport s now job_id file_name stage
          percent).2.1 = false ∧
      (post_stage_changed c transport s now job_id file_name stage
          percent).2.2 = [Effect.storeWrite] ∧
      (post_stage_changed c transport s now job_id file_name stage
          percent).2.1 = false ∧
      (post_completed c transport s now job_id file_name).2.2
          = [Effect.storeWrite] ∧
      (post_completed c transport s now job_id file_name).2.1 = false ∧
      (post_failed c transport s now job_id file_name msg percent).2.2
          = [Effect.storeWrite] ∧
      (post_failed c transport s now job_id file_name msg percent).2.1
          = false ∧
      (emit_event c transport s now job_id file_name stage percent
          em).2.2 = [Effect.storeWrite] ∧
      (emit_event c transport s now job_id file_name stage percent
          em).2.1 = false) := by
  have hno := postAttempts_no_storeWrite transport c.max_retries 1
  by_cases hv : is_api_url_valid c.api_base_url = true
  · refine ⟨⟨rfl, _, rfl, ?_⟩, ⟨rfl, _, rfl, ?_⟩, ⟨rfl, _, rfl, ?_⟩,
      ⟨rfl, _, rfl, ?_⟩, ⟨rfl, _, rfl, ?_⟩, ?_, fun hnv => ?_⟩ <;>
      first
        | simpa [post_status, hv] using hno
        | skip
    · unfold emit_event
      split
      · exact ⟨_, rfl, by simpa [post_started, post_status, hv] using hno⟩
      · split
        · exact ⟨_, rfl, by simpa [post_completed, post_status, hv] using hno⟩
        · split
          · exact ⟨_, rfl, by simpa [post_failed, post_status, hv] using hno⟩
          · split
            · exact ⟨_, rfl,
                by simpa [post_stage_changed, post_status, hv] using hno⟩
            · exact ⟨_, rfl,
                by simpa [post_progress, post_status, hv] using hno⟩
    · exact absurd hv (by simp [hnv])
  · have hnv : is_api_url_valid c.api_base_url = false := by
      simpa using hv
    refine ⟨⟨rfl, [], ?_, by simp⟩, ⟨rfl, [], ?_, by simp⟩,
      ⟨rfl, [], ?_, by simp⟩, ⟨rfl, [], ?_, by simp⟩,
      ⟨rfl, [], ?_, by simp⟩, ⟨[], ?_, by simp⟩, fun _ => ?_⟩
    · simp [post_started, post_status, hnv]
    · simp [post_progress, post_status, hnv]
    · simp [post_stage_changed, post_status, hnv]
    · simp [post_completed, post_status, hnv]
    · simp [post_failed, post_status, hnv]
    · unfold emit_event
      split
      · simp [post_started, post_status, hnv]
      · split
        · simp [post_completed, post_status, hnv]
        · split
          · simp [post_failed, post_status, hnv]
          · split
            · simp [post_stage_changed, post_status, hnv]
            · simp [post_progress, post_status, hnv]
    · refine ⟨?_, ?_, ?_, ?_, ?_, ?_, ?_, ?_, ?_, ?_, ?_, ?_⟩ <;>
        first
          | simp [post_started, post_progress, post_stage_changed,
              post_completed, post_failed, post_status, hnv]
          | (unfold emit_event
             split
             · simp [post_started, post_status, hnv]
             · split
               · simp [post_completed, post_status, hnv]
               · split
                 · simp [post_failed, post_status, hnv]
                 · split
                   · simp [post_stage_changed, post_status, hnv]
                   · simp [post_progress, post_status, hnv])

/-- Witness for C4: a client built with a whitespace-only base URL is
disabled — a `post_failed` call still performs the `fail_job` mutation
but its trace is exactly the store write and it returns `false`. -/
theorem c4_mutate_before_network_witness :
    (post_failed ⟨some "   ", 3⟩ alwaysURLError (initial_state "t0") "t1"
        "J1" "a.mp4" "boom" 35).1
      = fail_job (initial_state "t0") "t1" "boom" ∧
    (post_failed ⟨some "   ", 3⟩ alwaysURLError (initial_state "t0") "t1"
        "J1" "a.mp4" "boom" 35).2.2 = [Effect.storeWrite] ∧
    (post_failed ⟨some "   ", 3⟩ alwaysURLError (initial_state "t0") "t1"
        "J1" "a.mp4" "boom" 35).2.1 = false :=
  have h := c4_mutate_before_network ⟨some "   ", 3⟩ alwaysURLError
    (initial_state "t0") "t1" "J1" "a.mp4" "idle" "boom" 35 none
  have hd := h.2.2.2.2.2.2 (by decide)
  ⟨(h.2.2.2.2.1).1, hd.2.2.2.2.2.2.2.2.1, hd.2.2.2.2.2.2.2.2.2.1⟩

/-- C2 counterexample: `emit_event(..., "Failed", 35, error_message="")`
provides an error message, but the failed path stores the default
`"Unknown error"` instead of the provided empty string, because the
source computes `error_message or "Unknown error"` and Python treats
the empty string as falsy. -/
theorem c2_counterexample :
    (emit_event exampleEnabledClient alwaysURLError (initial_state "t0")
        "t1" "J1" "a.mp4" "Failed" 35 (some "")).1.error_message
      = some "Unknown error" ∧
    (emit_event exampleEnabledClient alwaysURLError (initial_state "t0")
        "t1" "J1" "a.mp4" "Failed" 35 (some "")).1.error_message
      ≠ some "" := by
  refine ⟨by decide, by decide⟩

/-- C2 (amended): `emit_event` dispatches on the stage: `"Starting"` to
the started path, `"Completed"` to the completed path, `"Failed"` to the
failed path — whose message is the provided `error_message` when it is
non-empty and `"Unknown error"` when it is absent or empty — and any
other stage to the stage-changed path exactly when the store's current
stage differs from the requested one, and to the progress-update path
otherwise. -/
theorem c2_emit_event_dispatch (c : Client)
    (transport : Nat → TransportOutcome) (s : JobState)
    (now job_id file_name stage : String) (percent : Int)
    (em : Option String) :
    (stage = "Starting" →
      emit_event c transport s now job_id file_name stage percent em
        = post_started c transport s now job_id file_name) ∧
    (stage = "Completed" →
      emit_event c transport s now job_id file_name stage percent em
        = post_completed c transport s now job_id file_name) ∧
    (stage = "Failed" →
      emit_event c transport s now job_id file_name stage percent em
        = post_failed c transport s now job_id file_name
            (pyOrUnknownError em) percent) ∧
    (stage ≠ "Starting" → stage ≠ "Completed" → stage ≠ "Failed" →
      s.stage ≠ stage →
      emit_event c transport s now job_id file_name stage percent em
        = post_stage_changed c transport s now job_id file_name stage
            percent) ∧
    (stage ≠ "Starting" → stage ≠ "Completed" → stage ≠ "Failed" →
      s.stage = stage →
      emit_event c transport s now job_id file_name stage percent em
        = post_progress c transport s now job_id file_name stage
            percent) ∧
    (em = none → pyOrUnknownError em = "Unknown error") ∧
    (em = some "" → pyOrUnknownError em = "Unknown error") ∧
    (∀ m, em = some m → m ≠ "" → pyOrUnknownError em = m) := by
  refine ⟨fun h1 => ?_, fun h2 => ?_, fun h3 => ?_,
    fun h1 h2 h3 hne => ?_, fun h1 h2 h3 heq => ?_,
    fun h => ?_, fun h => ?_, fun m h hne => ?_⟩
  · subst h1; rfl
  · subst h2; rfl
  · subst h3; rfl
  · simp [emit_event, h1, h2, h3, hne]
  · simp [emit_event, h1, h2, h3, heq]
  · subst h; rfl
  · subst h; rfl
  · subst h; simp [pyOrUnknownError, String.isEmpty_iff, hne]

/-- Witness for C2: the started, stage-changed and progress paths are
taken at concrete inputs. -/
theorem c2_emit_event_dispatch_witness :
    emit_event exampleEnabledClient alwaysURLError (initial_state "t0")
        "t1" "J1" "a.mp4" "Starting" 0 none
      = post_started exampleEnabledClient alwaysURLError
          (initial_state "t0") "t1" "J1" "a.mp4" ∧
    emit_event exampleEnabledClient alwaysURLError exampleStartedState
        "t2" "J1" "a.mp4" "Encoding" 10 none
      = post_stage_changed exampleEnabledClient alwaysURLError
          exampleStartedState "t2" "J1" "a.mp4" "Encoding" 10 ∧
    emit_event exampleEnabledClient alwaysURLError exampleEncodingState
        "t3" "J1" "a.mp4" "Encoding" 40 none
      = post_progress exampleEnabledClient alwaysURLError
          exampleEncodingState "t3" "J1" "a.mp4" "Encoding" 40 :=
  ⟨(c2_emit_event_dispatch exampleEnabledClient alwaysURLError
      (initial_state "t0") "t1" "J1" "a.mp4" "Starting" 0 none).1 rfl,
    (c2_emit_event_dispatch exampleEnabledClient alwaysURLError
      exampleStartedState "t2" "J1" "a.mp4" "Encoding" 10
      none).2.2.2.1 (by decide) (by decide) (by decide) (by decide),
    (c2_emit_event_dispatch exampleEnabledClient alwaysURLError
      exampleEncodingState "t3" "J1" "a.mp4" "Encoding" 40
      none).2.2.2.2.1 (by decide) (by decide) (by decide) (by decide)⟩

lemma wus_none (samples : Nat → Option Nat) (ss fuel t : Nat) (last : Int)
    (cnt : Nat) (h : samples t = none) :
    wait_until_stable samples ss (fuel + 1) t last cnt
      = wait_until_stable samples ss fuel (t + 1) last cnt := by
  conv_lhs => unfold wait_until_stable
  simp only [h]

lemma wus_change (samples : Nat → Option Nat) (ss fuel t : Nat)
    (last : Int) (cnt size : Nat) (h : samples t = some size)
    (hne : (size : Int) ≠ last) :
    wait_until_stable samples ss (fuel + 1) t last cnt
      = wait_until_stable samples ss fuel (t + 1) (size : Int) 0 := by
  conv_lhs => unfold wait_until_stable
  simp only [h]
  rw [if_neg hne]

lemma wus_same (samples : Nat → Option Nat) (ss fuel t : Nat)
    (last : Int) (cnt size : Nat) (h : samples t = some size)
    (heq : (size : Int) = last) :
    wait_until_stable samples ss (fuel + 1) t last cnt
      = if ss ≤ cnt + 1 then some t
        else wait_until_stable samples ss fuel (t + 1) last (cnt + 1) := by
  conv_lhs => unfold wait_until_stable
  simp only [h, heq]
  simp

lemma wus_sample_present (samples : Nat → Option Nat) (ss : Nat) :
    ∀ fuel t (last : Int) cnt tA,
      wait_until_stable samples ss fuel t last cnt = some tA →
      ∃ v, samples tA = some v := by
  intro fuel
  induction fuel with
  | zero =>
    intro t last cnt tA h
    exact absurd h (by simp [wait_until_stable])
  | succ f ih =>
    intro t last cnt tA h
    cases hsam : samples t with
    | none =>
      rw [wus_none samples ss f t last cnt hsam] at h
      exact ih (t + 1) last cnt tA h
    | some size =>
      by_cases hsz : (size : Int) = last
      · rw [wus_same samples ss f t last cnt size hsam hsz] at h
        by_cases hcnt : ss ≤ cnt + 1
        · rw [if_pos hcnt] at h
          injection h with h
          exact ⟨size, h ▸ hsam⟩
        · rw [if_neg hcnt] at h
          exact ih (t + 1) last (cnt + 1) tA h
      · rw [wus_change samples ss f t last cnt size hsam hsz] at h
        exact ih (t + 1) (size : Int) 0 tA h

lemma wus_bound (samples : Nat → Option Nat) (ss : Nat) :
    ∀ fuel t (last : Int) cnt tA,
      wait_until_stable samples ss fuel t last cnt = some tA →
      t + ss ≤ tA + cnt + 1 := by
  intro fuel
  induction fuel with
  | zero =>
    intro t last cnt tA h
    exact absurd h (by simp [wait_until_stable])
  | succ f ih =>
    intro t last cnt tA h
    cases hsam : samples t with
    | none =>
      rw [wus_none samples ss f t last cnt hsam] at h
      have := ih (t + 1) last cnt tA h
      omega
    | some size =>
      by_cases hsz : (size : Int) = last
      · rw [wus_same samples ss f t last cnt size hsam hsz] at h
        by_cases hcnt : ss ≤ cnt + 1
        · rw [if_pos hcnt] at h
          injection h with h
          omega
        · rw [if_neg hcnt] at h
          have := ih (t + 1) last (cnt + 1) tA h
          omega
      · rw [wus_change samples ss f t last cnt size hsam hsz] at h
        have := ih (t + 1) (size : Int) 0 tA h
        omega

/-- C7: the stability wait (i) only ever admits on a sample where the
file is present, (ii) on a missing sample just keeps polling with its
state unchanged (it neither fails nor admits there), (iii) resets its
counter to zero on any size change, (iv) on an unchanged-size sample
increments the counter and admits exactly when it has reached
`stable_seconds` (10 by the caller's default), (v) from a state with
counter `cnt` at second `t`, admission cannot happen before
`t + stable_seconds - cnt - 1`, and therefore (vi) after a size change
observed at second `c`, admission happens no earlier than
`c + stable_seconds`. -/
theorem c7_stability_admission (samples : Nat → Option Nat) (ss : Nat) :
    (∀ fuel t (last : Int) cnt tA,
      wait_until_stable samples ss fuel t last cnt = some tA →
      ∃ v, samples tA = some v) ∧
    (∀ fuel t (last : Int) cnt, samples t = none →
      wait_until_stable samples ss (fuel + 1) t last cnt
        = wait_until_stable samples ss fuel (t + 1) last cnt) ∧
    (∀ fuel t (last : Int) cnt size, samples t = some size →
      (size : Int) ≠ last →
      wait_until_stable samples ss (fuel + 1) t last cnt
        = wait_until_stable samples ss fuel (t + 1) (size : Int) 0) ∧
    (∀ fuel t (last : Int) cnt size, samples t = some size →
      (size : Int) = last →
      wait_until_stable samples ss (fuel + 1) t last cnt
        = if ss ≤ cnt + 1 then some t
          else wait_until_stable samples ss fuel (t + 1) last (cnt + 1)) ∧
    (∀ fuel t (last : Int) cnt tA,
      wait_until_stable samples ss fuel t last cnt = some tA →
      t + ss ≤ tA + cnt + 1) ∧
    (∀ fuel c size tA,
      wait_until_stable samples ss fuel (c + 1) (size : Int) 0 = some tA →
      c + ss ≤ tA) :=
  ⟨wus_sample_present samples ss,
    fun fuel t last cnt h => wus_none samples ss fuel t last cnt h,
    fun fuel t last cnt size h hne =>
      wus_change samples ss fuel t last cnt size h hne,
    fun fuel t last cnt size h heq =>
      wus_same samples ss fuel t last cnt size h heq,
    wus_bound samples ss,
    fun fuel c size tA h => by
      have := wus_bound samples ss fuel (c + 1) (size : Int) 0 tA h
      omega⟩

/-- Witness for C7: with the default threshold of 10, a run that last
saw a size change at second 1 admits at second 11, and the theorem's
bound confirms admission at least 10 seconds after that change. -/
theorem c7_stability_admission_witness :
    wait_until_stable exampleSamples 10 10 2 5 0 = some 11 ∧
    1 + 10 ≤ 11 :=
  ⟨by decide,
    (c7_stability_admission exampleSamples 10).2.2.2.2.2 10 1 5 11
      (by decide)⟩

/-- C8: (i) enqueuing a path already in the de-duplication set is a
silent no-op, so enqueuing the same path twice before it is dequeued
yields exactly one queue entry — hence exactly one `run_for_file`
invocation, since `worker_step` invokes the driver once per dequeued
entry; (ii) the state change of a worker iteration is the same whether
the driver returns normally or raises (the `finally` discard always
runs), the dequeued path is removed from the de-duplication set, and it
can be enqueued again afterwards. -/
theorem c8_dedup_queue (st : WatcherState) (p : String) (a b : Bool) :
    (p ∉ st.queued_files →
      (enqueue (enqueue st p).1 p).1 = (enqueue st p).1 ∧
      (enqueue (enqueue st p).1 p).2 = false ∧
      (enqueue st p).1.queue.count p = st.queue.count p + 1) ∧
    (p ∉ st.queued_files → (∀ q ∈ st.queue, q ∈ st.queued_files) →
      (enqueue st p).1.queue.count p = 1) ∧
    worker_step a st = worker_step b st ∧
    (∀ q rest, st.queue = q :: rest →
      (worker_step a st).2 = some q ∧
      q ∉ (worker_step a st).1.queued_files ∧
      (enqueue (worker_step a st).1 q).2 = true) := by
  refine ⟨fun hp => ?_, fun hp hsub => ?_, rfl, fun q rest hq => ?_⟩
  · have h1 : (enqueue st p).1
        = { queue := st.queue ++ [p],
            queued_files := insert p st.queued_files } := by
      simp [enqueue, hp]
    refine ⟨?_, ?_, ?_⟩
    · rw [h1]; simp [enqueue]
    · rw [h1]; simp [enqueue]
    · rw [h1]; simp
  · have hcount : st.queue.count p = 0 :=
      List.count_eq_zero.mpr (fun hmem => hp (hsub p hmem))
    simp [enqueue, hp, hcount]
  · refine ⟨by simp [worker_step, hq], ?_, ?_⟩
    · simp only [worker_step, hq]
      exact Finset.not_mem_erase q st.queued_files
    · simp only [worker_step, hq, enqueue]
      simp [Finset.not_mem_erase]

/-- Witness for C8: from an empty watcher state, enqueuing `a.mp4` twice
yields one queue entry and the second call is a no-op; after the worker
step the path is out of the de-duplication set and can be enqueued
again. -/
theorem c8_dedup_queue_witness :
    (enqueue (enqueue ⟨[], ∅⟩ "a.mp4").1 "a.mp4").1
        = (enqueue ⟨[], ∅⟩ "a.mp4").1 ∧
    (enqueue ⟨[], ∅⟩ "a.mp4").1.queue.count "a.mp4" = 1 ∧
    (worker_step true (enqueue ⟨[], ∅⟩ "a.mp4").1).2 = some "a.mp4" ∧
    "a.mp4" ∉ (worker_step true (enqueue ⟨[], ∅⟩ "a.mp4").1).1.queued_files ∧
    (enqueue (worker_step true (enqueue ⟨[], ∅⟩ "a.mp4").1).1
        "a.mp4").2 = true :=
  have h0 := c8_dedup_queue ⟨[], ∅⟩ "a.mp4" true true
  have h1 := c8_dedup_queue (enqueue ⟨[], ∅⟩ "a.mp4").1 "a.mp4" true true
  have hq : (enqueue (⟨[], ∅⟩ : WatcherState) "a.mp4").1.queue
      = "a.mp4" :: [] := by simp [enqueue]
  have h4 := h1.2.2.2 "a.mp4" [] hq
  ⟨(h0.1 (by simp)).1,
    h0.2.1 (by simp) (by simp),
    h4.1, h4.2.1, h4.2.2⟩

end VodPipeline
